import Mathlib

/-!
Shallow embedding of `src/tkex.py`, a small set of tkinter widget
extensions: the `DraggableWidget` mixin (mouse-driven dragging of
widgets positioned with `place`), the `Series` / `Row` / `Column`
auto-layout frames, and the unfinished `DroppableWidget` drop geometry
manager.

Modelling conventions:
* Per-widget Python attributes become fields of `DragState`; toolkit
  queries (`winfo_x`, `winfo_pointerx`, `winfo_reqwidth`, ...) are read
  from a `WinfoEnv` snapshot passed to each handler.
* Calls into the toolkit (`tkraise`, `super().place`,
  `super().place_forget`, `after`, `after_cancel`,
  `update_idletasks`) are recorded in an emitted `Action` trace; the
  `after` call's opaque timer handle is supplied as a fresh `Nat`.
* Machine arithmetic: tkinter coordinates are plain Python ints, so we
  use `Int` with no overflow.
-/

namespace Tkex

namespace tk

/-- tkinter.HORIZONTAL -/
def HORIZONTAL : String := "horizontal"

/-- tkinter.VERTICAL -/
def VERTICAL : String := "vertical"

end tk

/-- Snapshot of the toolkit queries a `DraggableWidget` handler can make:
its own position (`winfo_x`/`winfo_y`), the mouse pointer
(`winfo_pointerx`/`winfo_pointery`), its requested size and its
master's requested size. -/
structure WinfoEnv where
  winfo_x : Int
  winfo_y : Int
  winfo_pointerx : Int
  winfo_pointery : Int
  winfo_reqwidth : Int
  winfo_reqheight : Int
  master_reqwidth : Int
  master_reqheight : Int
deriving DecidableEq

/-- The per-widget attributes set up in `DraggableWidget.__init__`. -/
structure DragState where
  _placed : Bool
  _x : Int
  _y : Int
  _last_x : Int
  _last_y : Int
  _px : Int
  _py : Int
  _place_timer : Option Nat
  _refresh : Nat
deriving DecidableEq

/-- `DraggableWidget.__init__`: all offsets zero, not placed, no timer,
refresh interval 10 ms. -/
def DragState.init : DragState :=
  { _placed := false, _x := 0, _y := 0, _last_x := 0, _last_y := 0,
    _px := 0, _py := 0, _place_timer := none, _refresh := 10 }

/-- Toolkit calls a handler can perform, recorded as a trace.
`scanCall` marks an invocation of `DroppableWidget.scan`; no handler in
the module emits it (in `drop` the call is commented out). -/
inductive Action where
  | tkraise : Action
  | placeCall : Int → Int → Action
  | placeForget : Action
  | afterSchedule : Nat → Nat → Action
  | afterCancel : Nat → Action
  | update_idletasks : Action
  | scanCall : Action
deriving DecidableEq

namespace DraggableWidget

/-- `DraggableWidget._place_again(self, event=None)`: if the target
offsets `_x`, `_y` moved since the last placement, clamp them into
`[-5, master_reqwidth - reqwidth + 5]` (resp. heights), re-place the
widget there and remember the position in `_last_x`/`_last_y`; in every
case reschedule itself after `_refresh` ms, storing the returned handle
`h` in `_place_timer`.  The overridden `place_forget`/`place` leave
`_placed = true` at the end of the re-place branch. -/
def _place_again (s : DragState) (env : WinfoEnv) (h : Nat) :
    DragState × List Action :=
  if s._x ≠ s._last_x ∨ s._y ≠ s._last_y then
    let max_x := env.master_reqwidth - env.winfo_reqwidth + 5
    let max_y := env.master_reqheight - env.winfo_reqheight + 5
    let x1 := if s._x > max_x then max_x else s._x
    let x2 := if x1 < -5 then -5 else x1
    let y1 := if s._y > max_y then max_y else s._y
    let y2 := if y1 < -5 then -5 else y1
    ({ s with _placed := true, _x := x2, _y := y2,
              _last_x := x2, _last_y := y2, _place_timer := some h },
     [Action.placeForget, Action.placeCall x2 y2,
      Action.afterSchedule s._refresh h])
  else
    ({ s with _place_timer := some h }, [Action.afterSchedule s._refresh h])

/-- `DraggableWidget.on_click`: no-op unless `_placed`; otherwise raise
the widget, load `_x`/`_y` (and `_last_x`/`_last_y`) from the current
window position, record the pointer position, and run `_place_again`. -/
def on_click (s : DragState) (env : WinfoEnv) (h : Nat) :
    DragState × List Action :=
  if s._placed = false then (s, [])
  else
    let s1 := { s with _x := env.winfo_x, _y := env.winfo_y,
                       _last_x := env.winfo_x, _last_y := env.winfo_y,
                       _px := env.winfo_pointerx, _py := env.winfo_pointery }
    let r := _place_again s1 env h
    (r.1, Action.tkraise :: r.2)

/-- `DraggableWidget.on_move`: no-op unless `_placed`; otherwise add the
pointer delta to `_x`/`_y` and remember the new pointer position. -/
def on_move (s : DragState) (env : WinfoEnv) : DragState × List Action :=
  if s._placed = false then (s, [])
  else
    let px := env.winfo_pointerx
    let py := env.winfo_pointery
    ({ s with _x := s._x + (px - s._px), _y := s._y + (py - s._py),
              _px := px, _py := py }, [])

/-- `DraggableWidget.on_stop`: no-op unless `_placed`; if a timer is
pending, cancel it, clear `_place_timer`, and re-place at the current
`_x`/`_y` (leaving `_placed = true`); finally reload `_x`/`_y` from the
window position. -/
def on_stop (s : DragState) (env : WinfoEnv) : DragState × List Action :=
  if s._placed = false then (s, [])
  else
    match s._place_timer with
    | some t =>
        ({ s with _placed := true, _place_timer := none,
                  _x := env.winfo_x, _y := env.winfo_y },
         [Action.afterCancel t, Action.placeForget,
          Action.placeCall s._x s._y])
    | none =>
        ({ s with _x := env.winfo_x, _y := env.winfo_y }, [])

/-- Overridden `place`: set `_placed` and delegate to the toolkit. -/
def place (s : DragState) (x y : Int) : DragState × List Action :=
  ({ s with _placed := true }, [Action.placeCall x y])

/-- Overridden `place_forget`: clear `_placed` and delegate. -/
def place_forget (s : DragState) : DragState × List Action :=
  ({ s with _placed := false }, [Action.placeForget])

end DraggableWidget

/-- The drag operations of `DraggableWidget`, reified so that the frame
condition over a world of widgets can be stated uniformly. -/
inductive DragOp where
  | click : Nat → DragOp
  | move : DragOp
  | stop : DragOp
  | again : Nat → DragOp
  | placeAt : Int → Int → DragOp
  | forget : DragOp
deriving DecidableEq

/-- Dispatch a reified drag operation to the corresponding handler. -/
def runOp (op : DragOp) (s : DragState) (env : WinfoEnv) :
    DragState × List Action :=
  match op with
  | .click h => DraggableWidget.on_click s env h
  | .move => DraggableWidget.on_move s env
  | .stop => DraggableWidget.on_stop s env
  | .again h => DraggableWidget._place_again s env h
  | .placeAt x y => DraggableWidget.place s x y
  | .forget => DraggableWidget.place_forget s

/-- A world of draggable widgets, indexed by widget identity.  The
module keeps no module-level state, so running a handler on widget `i`
updates only slot `i`. -/
def runOpAt (world : Nat → DragState) (i : Nat) (op : DragOp)
    (env : WinfoEnv) : Nat → DragState :=
  fun j => if j = i then (runOp op (world i) env).1 else world j

/-- A tk widget as the `Series` and drop layout code sees it: its
current position and requested size. -/
structure Widget where
  winfo_x : Int
  winfo_y : Int
  winfo_reqwidth : Int
  winfo_reqheight : Int
deriving DecidableEq

/-- The attributes of a `Series` frame: the list of managed widgets and
the validated orientation. -/
structure SeriesState where
  series : List Widget
  orientation : String
deriving DecidableEq

namespace Series

/-- `Series.__init__`: `ValueError` when `orientation` is `None`,
`ValueError` when it is neither `tk.HORIZONTAL` nor `tk.VERTICAL`,
otherwise construct the frame with an empty series. -/
def init (orientation : Option String) : Except String SeriesState :=
  match orientation with
  | none => Except.error "No orientation provided"
  | some o =>
      if o = tk.HORIZONTAL ∨ o = tk.VERTICAL then
        Except.ok { series := [], orientation := o }
      else
        Except.error
          "Invalid orientation provided, must be tkinter.HORIZONTAL or tkinter.VERTICAL"

/-- The sort key selected in `Series.__init__`: `winfo_x` for
horizontal orientation, `winfo_y` otherwise (i.e. vertical). -/
def sort_function (orientation : String) (w : Widget) : Int :=
  if orientation = tk.HORIZONTAL then w.winfo_x else w.winfo_y

/-- Boolean comparison on the sort key, used to model
`self.series.sort(key=self.sort_function)`. -/
def leKey (orientation : String) (a b : Widget) : Bool :=
  decide (sort_function orientation a ≤ sort_function orientation b)

/-- `self.series` after `self.series.sort(key=self.sort_function)`. -/
def sortedSeries (s : SeriesState) : List Widget :=
  s.series.mergeSort (leKey s.orientation)

/-- The re-placement loop of `Series.cleanup`: each widget is
`place_forget` then `place`d at the running offset, which advances by
the widget's requested width (horizontal) or height (vertical). -/
def cleanupLoop (orientation : String) (x y : Int) :
    List Widget → List Widget
  | [] => []
  | w :: ws =>
      let w1 := { w with winfo_x := x, winfo_y := y }
      if orientation = tk.HORIZONTAL then
        w1 :: cleanupLoop orientation (x + w.winfo_reqwidth) y ws
      else
        w1 :: cleanupLoop orientation x (y + w.winfo_reqheight) ws

/-- `Series.cleanup`: sort `self.series` by the orientation key, then
re-place every widget at consecutive offsets starting from `(0, 0)`. -/
def cleanup (s : SeriesState) : SeriesState :=
  { s with series := cleanupLoop s.orientation 0 0 (sortedSeries s) }

end Series

/-- `Row.__init__` forwards `orientation=tk.HORIZONTAL` to
`Series.__init__`. -/
def Row.init : Except String SeriesState := Series.init (some tk.HORIZONTAL)

/-- `Column.__init__` forwards `orientation=tk.VERTICAL` to
`Series.__init__`. -/
def Column.init : Except String SeriesState := Series.init (some tk.VERTICAL)

/-- A `matplotlib.path.Path`, reduced to its vertex list (the only part
`drop` builds); `Path(list)` stores the given vertices. -/
structure PPath where
  vertices : List (Int × Int)
deriving DecidableEq

/-- `matplotlib.path.Path.make_compound_path`: concatenates the
vertices of the two paths into one compound path. -/
def Path.make_compound_path (a b : PPath) : PPath :=
  ⟨a.vertices ++ b.vertices⟩

namespace DroppableWidget

/-- The rectangular `Path` that `drop` builds for one sibling `child`:
corners `(winfo_x, winfo_y)` and
`(winfo_x + winfo_reqwidth, winfo_y + winfo_reqheight)`, listed in the
order of the source. -/
def rectPath (c : Widget) : PPath :=
  ⟨[(c.winfo_x, c.winfo_y),
    (c.winfo_x, c.winfo_y + c.winfo_reqheight),
    (c.winfo_x + c.winfo_reqwidth, c.winfo_y + c.winfo_reqheight),
    (c.winfo_x + c.winfo_reqwidth, c.winfo_y)]⟩

/-- The `poly` accumulation loop in `drop`: starting from `None`, each
sibling's rectangle is merged in with `make_compound_path` (first one
simply assigned, matching `if poly:` falsy on `None`). -/
def dropPoly (others : List Widget) : Option PPath :=
  others.foldl
    (fun poly child =>
      match poly with
      | some p => some (Path.make_compound_path p (rectPath child))
      | none => some (rectPath child))
    none

/-- `DroppableWidget.drop`.  `children` lists `self.master.children`
together with a flag marking which entry `is self`; the loop skips
`self`.  The commented-out `self.scan()` is not performed.  The built
`poly` is returned only to state that it is discarded: the method ends
with `self.place(x=0, y=0)` unconditionally. -/
def drop (s : DragState) (children : List (Widget × Bool)) :
    DragState × List Action × Option PPath :=
  let others := (children.filter (fun c => !c.2)).map Prod.fst
  let poly := dropPoly others
  let pr := DraggableWidget.place s 0 0
  (pr.1, Action.update_idletasks :: pr.2, poly)

/-- `DroppableWidget.scan`: computes the set of rounded polar points
`(round(r cos θ), round(r sin θ))` for `r = 0 .. r_max` and
`θ` among 0, π/4 and π/2 (the three values the inner `while` loop
produces from `step = θ_max / 2`), and prints; it touches no widget
state.  The floating-point quantities `r_max = round(√(w² + h²))` and
the rounded trigonometric values are abstracted as the parameters
`r_max`, `rcos` and `rsin` (indexed by `r` and by which of the three
`θ` values), since the claims about `scan` do not depend on them. -/
def scan (s : DragState) (r_max : Nat) (rcos rsin : Nat → Fin 3 → Int) :
    DragState × List (Int × Int) :=
  (s,
   (List.range (r_max + 1)).foldl
     (fun acc r =>
       acc ++ [(rcos r 0, rsin r 0), (rcos r 1, rsin r 1),
               (rcos r 2, rsin r 2)])
     [])

end DroppableWidget

/-- C1: `DroppableWidget.drop` unconditionally ends with
`place(x=0, y=0)`: whatever the master's other children are, the trace
is exactly `update_idletasks` followed by `place(0, 0)`, and the
widget's state changes only by `_placed := true`; no collision-avoiding
position is ever computed. -/
theorem drop_places_at_origin (s : DragState)
    (children : List (Widget × Bool)) :
    (DroppableWidget.drop s children).2.1 =
      [Action.update_idletasks, Action.placeCall 0 0] ∧
    (DroppableWidget.drop s children).2.1.getLast? =
      some (Action.placeCall 0 0) ∧
    (DroppableWidget.drop s children).1 = { s with _placed := true } := by
  refine ⟨rfl, rfl, rfl⟩

/-- C2: `Series.__init__` fails exactly when the orientation is missing
or invalid: success holds iff the orientation is `tk.HORIZONTAL` or
`tk.VERTICAL`; `None` yields the missing-orientation `ValueError`, and
the invalid-orientation `ValueError` occurs iff the argument is present
but neither constant.  (All other operations of the module are total in
this embedding: no other code path raises.) -/
theorem series_init_validation (o : Option String) :
    ((∃ s, Series.init o = Except.ok s) ↔
      (o = some tk.HORIZONTAL ∨ o = some tk.VERTICAL)) ∧
    Series.init none = Except.error "No orientation provided" ∧
    ((Series.init o = Except.error
        "Invalid orientation provided, must be tkinter.HORIZONTAL or tkinter.VERTICAL") ↔
      (o ≠ none ∧ ¬(o = some tk.HORIZONTAL ∨ o = some tk.VERTICAL))) := by
  refine ⟨⟨?_, ?_⟩, rfl, ⟨?_, ?_⟩⟩
  · rintro ⟨s, hs⟩
    cases o with
    | none => simp [Series.init] at hs
    | some o =>
        by_cases ho : o = tk.HORIZONTAL ∨ o = tk.VERTICAL
        · rcases ho with h | h <;> simp [h]
        · simp [Series.init, ho] at hs
  · rintro (h | h) <;> subst h
    · exact ⟨{ series := [], orientation := tk.HORIZONTAL },
             by simp [Series.init]⟩
    · exact ⟨{ series := [], orientation := tk.VERTICAL },
             by simp [Series.init]⟩
  · intro he
    cases o with
    | none => simp [Series.init] at he
    | some o =>
        by_cases ho : o = tk.HORIZONTAL ∨ o = tk.VERTICAL
        · simp [Series.init, if_pos ho] at he
        · refine ⟨by simp, ?_⟩
          rintro (h | h) <;> simp_all
  · rintro ⟨hn, hv⟩
    cases o with
    | none => simp at hn
    | some o =>
        have ho : ¬(o = tk.HORIZONTAL ∨ o = tk.VERTICAL) := by
          rintro (h | h) <;> simp_all
        simp [Series.init, ho]

/-- C7: when a `DraggableWidget` is not positioned with `place`
(`_placed = false`, e.g. after `place_forget`), `on_click`, `on_move`
and `on_stop` return immediately: the state is unchanged and no toolkit
call is made. -/
theorem handlers_noop_when_not_placed (s : DragState) (env : WinfoEnv)
    (h : Nat) (hp : s._placed = false) :
    DraggableWidget.on_click s env h = (s, []) ∧
    DraggableWidget.on_move s env = (s, []) ∧
    DraggableWidget.on_stop s env = (s, []) := by
  refine ⟨?_, ?_, ?_⟩ <;>
    simp [DraggableWidget.on_click, DraggableWidget.on_move,
          DraggableWidget.on_stop, hp]

/-- Witness for C7 at a concrete unplaced widget. -/
theorem handlers_noop_when_not_placed_witness :
    DragState.init._placed = false ∧
    (DraggableWidget.on_click DragState.init ⟨1, 2, 3, 4, 5, 6, 7, 8⟩ 9 =
       (DragState.init, []) ∧
     DraggableWidget.on_move DragState.init ⟨1, 2, 3, 4, 5, 6, 7, 8⟩ =
       (DragState.init, []) ∧
     DraggableWidget.on_stop DragState.init ⟨1, 2, 3, 4, 5, 6, 7, 8⟩ =
       (DragState.init, [])) :=
  ⟨rfl, handlers_noop_when_not_placed DragState.init ⟨1, 2, 3, 4, 5, 6, 7, 8⟩ 9 rfl⟩

/-- C8: every drag operation run on widget `i` of a world of widgets
changes only slot `i` (to the handler's result on that widget's own
state); every other widget's state is untouched, and there is no
module-level state at all in the embedding. -/
theorem drag_ops_frame (world : Nat → DragState) (i j : Nat)
    (op : DragOp) (env : WinfoEnv) (hij : j ≠ i) :
    runOpAt world i op env j = world j ∧
    runOpAt world i op env i = (runOp op (world i) env).1 := by
  constructor
  · simp [runOpAt, hij]
  · simp [runOpAt]

/-- Witness for C8 at a concrete world, operation and pair of slots. -/
theorem drag_ops_frame_witness :
    (1 : Nat) ≠ 0 ∧
    (runOpAt (fun _ => DragState.init) 0 DragOp.move ⟨0, 0, 0, 0, 0, 0, 0, 0⟩ 1 =
       DragState.init ∧
     runOpAt (fun _ => DragState.init) 0 DragOp.move ⟨0, 0, 0, 0, 0, 0, 0, 0⟩ 0 =
       (runOp DragOp.move DragState.init ⟨0, 0, 0, 0, 0, 0, 0, 0⟩).1) :=
  ⟨by decide,
   drag_ops_frame (fun _ => DragState.init) 0 1 DragOp.move
     ⟨0, 0, 0, 0, 0, 0, 0, 0⟩ (by decide)⟩

/-- C3: whenever `_place_again` re-places the widget (the offsets moved
since the last placement) and the clamping interval is nonempty on both
axes, the coordinates placed lie in
`[-5, master_reqwidth - reqwidth + 5]` (resp. heights), and afterwards
`_last_x = _x` and `_last_y = _y`. -/
theorem place_again_clamps (s : DragState) (env : WinfoEnv) (h : Nat)
    (hx : -5 ≤ env.master_reqwidth - env.winfo_reqwidth + 5)
    (hy : -5 ≤ env.master_reqheight - env.winfo_reqheight + 5)
    (hmoved : s._x ≠ s._last_x ∨ s._y ≠ s._last_y) :
    -5 ≤ (DraggableWidget._place_again s env h).1._x ∧
    (DraggableWidget._place_again s env h).1._x ≤
      env.master_reqwidth - env.winfo_reqwidth + 5 ∧
    -5 ≤ (DraggableWidget._place_again s env h).1._y ∧
    (DraggableWidget._place_again s env h).1._y ≤
      env.master_reqheight - env.winfo_reqheight + 5 ∧
    (DraggableWidget._place_again s env h).1._last_x =
      (DraggableWidget._place_again s env h).1._x ∧
    (DraggableWidget._place_again s env h).1._last_y =
      (DraggableWidget._place_again s env h).1._y ∧
    Action.placeCall (DraggableWidget._place_again s env h).1._x
        (DraggableWidget._place_again s env h).1._y ∈
      (DraggableWidget._place_again s env h).2 := by
  unfold DraggableWidget._place_again
  rw [if_pos hmoved]
  refine ⟨?_, ?_, ?_, ?_, rfl, rfl, by simp⟩ <;> dsimp only <;>
    split_ifs <;> omega

/-- Witness for C3 at a widget dragged far beyond the right edge of a
100 x 100 master. -/
theorem place_again_clamps_witness :
    (-5 ≤ (100 : Int) - 10 + 5 ∧ -5 ≤ (100 : Int) - 10 + 5 ∧
      (((200 : Int) ≠ 0 ∨ (0 : Int) ≠ 0))) ∧
    (-5 ≤ (DraggableWidget._place_again
        { DragState.init with _x := 200 }
        ⟨0, 0, 0, 0, 10, 10, 100, 100⟩ 1).1._x ∧
     (DraggableWidget._place_again { DragState.init with _x := 200 }
        ⟨0, 0, 0, 0, 10, 10, 100, 100⟩ 1).1._x ≤ (100 : Int) - 10 + 5 ∧
     -5 ≤ (DraggableWidget._place_again { DragState.init with _x := 200 }
        ⟨0, 0, 0, 0, 10, 10, 100, 100⟩ 1).1._y ∧
     (DraggableWidget._place_again { DragState.init with _x := 200 }
        ⟨0, 0, 0, 0, 10, 10, 100, 100⟩ 1).1._y ≤ (100 : Int) - 10 + 5 ∧
     (DraggableWidget._place_again { DragState.init with _x := 200 }
        ⟨0, 0, 0, 0, 10, 10, 100, 100⟩ 1).1._last_x =
       (DraggableWidget._place_again { DragState.init with _x := 200 }
        ⟨0, 0, 0, 0, 10, 10, 100, 100⟩ 1).1._x ∧
     (DraggableWidget._place_again { DragState.init with _x := 200 }
        ⟨0, 0, 0, 0, 10, 10, 100, 100⟩ 1).1._last_y =
       (DraggableWidget._place_again { DragState.init with _x := 200 }
        ⟨0, 0, 0, 0, 10, 10, 100, 100⟩ 1).1._y ∧
     Action.placeCall
         (DraggableWidget._place_again { DragState.init with _x := 200 }
          ⟨0, 0, 0, 0, 10, 10, 100, 100⟩ 1).1._x
         (DraggableWidget._place_again { DragState.init with _x := 200 }
          ⟨0, 0, 0, 0, 10, 10, 100, 100⟩ 1).1._y ∈
       (DraggableWidget._place_again { DragState.init with _x := 200 }
        ⟨0, 0, 0, 0, 10, 10, 100, 100⟩ 1).2) :=
  ⟨⟨by decide, by decide, by decide⟩,
   place_again_clamps { DragState.init with _x := 200 }
     ⟨0, 0, 0, 0, 10, 10, 100, 100⟩ 1 (by decide) (by decide)
     (Or.inl (by decide))⟩

/-- C4: `_place_again` always ends by rescheduling itself after
`_refresh` ms, storing the fresh handle in `_place_timer` (whether or
not the position changed); and `on_stop`, on a placed widget with a
pending timer, cancels that timer and resets `_place_timer` to `None`
— the only way the reschedule chain is broken. -/
theorem place_again_reschedules (s s2 : DragState) (env : WinfoEnv)
    (h t : Nat) (hp : s2._placed = true) (ht : s2._place_timer = some t) :
    (DraggableWidget._place_again s env h).1._place_timer = some h ∧
    (DraggableWidget._place_again s env h).2.getLast? =
      some (Action.afterSchedule s._refresh h) ∧
    (DraggableWidget.on_stop s2 env).1._place_timer = none ∧
    Action.afterCancel t ∈ (DraggableWidget.on_stop s2 env).2 := by
  refine ⟨?_, ?_, ?_, ?_⟩
  · unfold DraggableWidget._place_again
    split <;> rfl
  · unfold DraggableWidget._place_again
    split <;> rfl
  · simp [DraggableWidget.on_stop, hp, ht]
  · simp [DraggableWidget.on_stop, hp, ht]

/-- Witness for C4 at a concrete placed widget holding timer handle 3,
rescheduled with fresh handle 7. -/
theorem place_again_reschedules_witness :
    ({ DragState.init with
       _placed := true,
       _place_timer := some 3 }._placed = true ∧
     { DragState.init with
       _placed := true,
       _place_timer := some 3 }._place_timer = some 3) ∧
    ((DraggableWidget._place_again DragState.init
        ⟨0, 0, 0, 0, 0, 0, 0, 0⟩ 7).1._place_timer = some 7 ∧
     (DraggableWidget._place_again DragState.init
        ⟨0, 0, 0, 0, 0, 0, 0, 0⟩ 7).2.getLast? =
       some (Action.afterSchedule DragState.init._refresh 7) ∧
     (DraggableWidget.on_stop
        { DragState.init with _placed := true, _place_timer := some 3 }
        ⟨0, 0, 0, 0, 0, 0, 0, 0⟩).1._place_timer = none ∧
     Action.afterCancel 3 ∈
       (DraggableWidget.on_stop
         { DragState.init with _placed := true, _place_timer := some 3 }
         ⟨0, 0, 0, 0, 0, 0, 0, 0⟩).2) :=
  ⟨⟨rfl, rfl⟩,
   place_again_reschedules DragState.init
     { DragState.init with _placed := true, _place_timer := some 3 }
     ⟨0, 0, 0, 0, 0, 0, 0, 0⟩ 7 3 rfl rfl⟩

/-- C10: the polar-coordinate scan is abandoned: `scan` leaves the
widget state untouched (it only produces the list of rounded polar
points, and prints), and no operation of the module — in particular
`drop`, where the call is commented out — ever performs a `scan`
call. -/
theorem scan_abandoned (s s2 : DragState) (env : WinfoEnv)
    (children : List (Widget × Bool)) (r_max : Nat)
    (rcos rsin : Nat → Fin 3 → Int) (h : Nat) :
    (DroppableWidget.scan s r_max rcos rsin).1 = s ∧
    Action.scanCall ∉ (DroppableWidget.drop s2 children).2.1 ∧
    Action.scanCall ∉ (DraggableWidget.on_click s2 env h).2 ∧
    Action.scanCall ∉ (DraggableWidget.on_move s2 env).2 ∧
    Action.scanCall ∉ (DraggableWidget.on_stop s2 env).2 ∧
    Action.scanCall ∉ (DraggableWidget._place_again s2 env h).2 ∧
    Action.scanCall ∉ (DraggableWidget.place s2 0 0).2 ∧
    Action.scanCall ∉ (DraggableWidget.place_forget s2).2 := by
  have hpa : ∀ (s3 : DragState),
      Action.scanCall ∉ (DraggableWidget._place_again s3 env h).2 := by
    intro s3
    unfold DraggableWidget._place_again
    split <;> simp
  refine ⟨rfl, by simp [DroppableWidget.drop, DraggableWidget.place],
          ?_, ?_, ?_, hpa s2, by simp [DraggableWidget.place],
          by simp [DraggableWidget.place_forget]⟩
  · unfold DraggableWidget.on_click
    split
    · simp
    · simpa using hpa _
  · unfold DraggableWidget.on_move
    split <;> simp
  · unfold DraggableWidget.on_stop
    split
    · simp
    · split <;> simp

/-- The sorted series is pairwise nondecreasing in the orientation's
sort key. -/
theorem sortedSeries_pairwise (s : SeriesState) :
    List.Pairwise
      (fun a b => Series.sort_function s.orientation a ≤
        Series.sort_function s.orientation b)
      (Series.sortedSeries s) := by
  have h : List.Pairwise
      (fun a b => Series.leKey s.orientation a b = true)
      (s.series.mergeSort (Series.leKey s.orientation)) :=
    List.sorted_mergeSort
      (fun a b c hab hbc => by
        simp only [Series.leKey, decide_eq_true_eq] at hab hbc ⊢
        omega)
      (fun a b => by
        simp only [Series.leKey, Bool.or_eq_true, decide_eq_true_eq]
        omega)
      s.series
  exact h.imp (fun hab => by simpa [Series.leKey] using hab)

/-- The re-placement loop of `cleanup` preserves the number of
widgets. -/
theorem cleanupLoop_length (o : String) (x y : Int) (ws : List Widget) :
    (Series.cleanupLoop o x y ws).length = ws.length := by
  induction ws generalizing x y with
  | nil => rfl
  | cons w ws ih =>
      simp only [Series.cleanupLoop]
      split <;> simp [ih]

/-- Position of each widget after the re-placement loop of `cleanup`:
widget `i` sits at the starting offset plus the sum of the requested
widths (horizontal) or heights (vertical) of the widgets before it. -/
theorem cleanupLoop_getElem (o : String) (ws : List Widget) (x y : Int)
    (i : Nat) :
    (Series.cleanupLoop o x y ws)[i]? = ws[i]?.map (fun w =>
      if o = tk.HORIZONTAL then
        { w with winfo_x := x + ((ws.take i).map Widget.winfo_reqwidth).sum,
                 winfo_y := y }
      else
        { w with winfo_x := x,
                 winfo_y := y + ((ws.take i).map Widget.winfo_reqheight).sum }) := by
  induction ws generalizing x y i with
  | nil => simp [Series.cleanupLoop]
  | cons w ws ih =>
      by_cases ho : o = tk.HORIZONTAL
      · subst ho
        cases i with
        | zero => simp [Series.cleanupLoop]
        | succ i =>
            simp only [Series.cleanupLoop, eq_self_iff_true, if_true,
              List.getElem?_cons_succ, List.take_succ_cons, List.map_cons,
              List.sum_cons]
            rw [ih]
            cases hwi : ws[i]? with
            | none => simp
            | some w2 =>
                simp [Widget.mk.injEq]
                omega
      · cases i with
        | zero => simp [Series.cleanupLoop, ho]
        | succ i =>
            simp only [Series.cleanupLoop, ho, if_false,
              List.getElem?_cons_succ, List.take_succ_cons, List.map_cons,
              List.sum_cons]
            rw [ih]
            cases hwi : ws[i]? with
            | none => simp
            | some w2 =>
                simp [ho, Widget.mk.injEq]
                omega

/-- C5: after `Series.cleanup`, the series is the old series sorted by
the orientation key (`winfo_x` horizontally, `winfo_y` otherwise), and
the `i`-th widget of the sorted order is re-placed with its main-axis
offset equal to the sum of the requested widths (resp. heights) of the
widgets preceding it and its cross-axis coordinate `0` — so the first
widget is at `(0, 0)` and consecutive widgets abut with no gap. -/
theorem cleanup_sorts_and_abuts (s : SeriesState) (i : Nat) (w : Widget) :
    List.Pairwise
      (fun a b => Series.sort_function s.orientation a ≤
        Series.sort_function s.orientation b)
      (Series.sortedSeries s) ∧
    (Series.sortedSeries s).Perm s.series ∧
    (Series.cleanup s).series.length = s.series.length ∧
    ((Series.sortedSeries s)[i]? = some w →
      (s.orientation = tk.HORIZONTAL →
        (Series.cleanup s).series[i]? =
          some { w with
                 winfo_x := (((Series.sortedSeries s).take i).map
                   Widget.winfo_reqwidth).sum,
                 winfo_y := 0 }) ∧
      (s.orientation ≠ tk.HORIZONTAL →
        (Series.cleanup s).series[i]? =
          some { w with
                 winfo_x := 0,
                 winfo_y := (((Series.sortedSeries s).take i).map
                   Widget.winfo_reqheight).sum })) := by
  refine ⟨sortedSeries_pairwise s, List.mergeSort_perm s.series _, ?_, ?_⟩
  · simp [Series.cleanup, cleanupLoop_length, Series.sortedSeries]
  · intro hi
    constructor <;> intro ho <;>
      simp [Series.cleanup, cleanupLoop_getElem, hi, ho]

/-- Witness for C5: a horizontal series of two widgets of widths 3 and
7; after cleanup the second widget sits at `x = 3`, `y = 0`. -/
theorem cleanup_sorts_and_abuts_witness :
    ((Series.sortedSeries
        ⟨[⟨0, 5, 3, 4⟩, ⟨10, 6, 7, 8⟩], tk.HORIZONTAL⟩)[1]? =
      some ⟨10, 6, 7, 8⟩) ∧
    (List.Pairwise
      (fun a b => Series.sort_function tk.HORIZONTAL a ≤
        Series.sort_function tk.HORIZONTAL b)
      (Series.sortedSeries
        ⟨[⟨0, 5, 3, 4⟩, ⟨10, 6, 7, 8⟩], tk.HORIZONTAL⟩) ∧
    (Series.sortedSeries
        ⟨[⟨0, 5, 3, 4⟩, ⟨10, 6, 7, 8⟩], tk.HORIZONTAL⟩).Perm
      [⟨0, 5, 3, 4⟩, ⟨10, 6, 7, 8⟩] ∧
    (Series.cleanup
        ⟨[⟨0, 5, 3, 4⟩, ⟨10, 6, 7, 8⟩], tk.HORIZONTAL⟩).series.length = 2 ∧
    ((Series.sortedSeries
        ⟨[⟨0, 5, 3, 4⟩, ⟨10, 6, 7, 8⟩], tk.HORIZONTAL⟩)[1]? =
        some ⟨10, 6, 7, 8⟩ →
      (tk.HORIZONTAL = tk.HORIZONTAL →
        (Series.cleanup
            ⟨[⟨0, 5, 3, 4⟩, ⟨10, 6, 7, 8⟩], tk.HORIZONTAL⟩).series[1]? =
          some { Widget.mk 10 6 7 8 with
                 winfo_x := (((Series.sortedSeries
                     ⟨[⟨0, 5, 3, 4⟩, ⟨10, 6, 7, 8⟩],
                       tk.HORIZONTAL⟩).take 1).map
                   Widget.winfo_reqwidth).sum,
                 winfo_y := 0 }) ∧
      (tk.HORIZONTAL ≠ tk.HORIZONTAL →
        (Series.cleanup
            ⟨[⟨0, 5, 3, 4⟩, ⟨10, 6, 7, 8⟩], tk.HORIZONTAL⟩).series[1]? =
          some { Widget.mk 10 6 7 8 with
                 winfo_x := 0,
                 winfo_y := (((Series.sortedSeries
                     ⟨[⟨0, 5, 3, 4⟩, ⟨10, 6, 7, 8⟩],
                       tk.HORIZONTAL⟩).take 1).map
                   Widget.winfo_reqheight).sum }))) :=
  ⟨by
    have h1 : Series.sortedSeries
        ⟨[⟨0, 5, 3, 4⟩, ⟨10, 6, 7, 8⟩], tk.HORIZONTAL⟩ =
        [⟨0, 5, 3, 4⟩, ⟨10, 6, 7, 8⟩] :=
      List.mergeSort_of_sorted (by decide)
    rw [h1]
    rfl,
   cleanup_sorts_and_abuts
     ⟨[⟨0, 5, 3, 4⟩, ⟨10, 6, 7, 8⟩], tk.HORIZONTAL⟩ 1 ⟨10, 6, 7, 8⟩⟩

/-- The fold step of `dropPoly`, named for reasoning. -/
def dropStep (poly : Option PPath) (child : Widget) : Option PPath :=
  match poly with
  | some p => some (Path.make_compound_path p (DroppableWidget.rectPath child))
  | none => some (DroppableWidget.rectPath child)

/-- `dropPoly` is the fold of `dropStep` from `None`. -/
theorem dropPoly_eq_foldl (others : List Widget) :
    DroppableWidget.dropPoly others = others.foldl dropStep none := by
  rfl

/-- Folding `dropStep` from an existing path concatenates every
sibling's rectangle vertices onto it. -/
theorem foldl_dropStep_some (ws : List Widget) (p : PPath) :
    ws.foldl dropStep (some p) =
      some ⟨p.vertices ++ ws.flatMap (fun c => (DroppableWidget.rectPath c).vertices)⟩ := by
  induction ws generalizing p with
  | nil => simp
  | cons c ws ih =>
      simp [dropStep, Path.make_compound_path, ih]

/-- C6: `drop` builds exactly one axis-aligned rectangle per child of
the master other than the widget itself — corners
`(winfo_x, winfo_y)` and
`(winfo_x + winfo_reqwidth, winfo_y + winfo_reqheight)` — merged into a
single compound path whose vertices are the concatenation of the
rectangles' vertices; and the polygon is discarded: the state and trace
of `drop` are those of `drop` with no siblings at all. -/
theorem drop_builds_discarded_poly (s : DragState)
    (children : List (Widget × Bool)) :
    (DroppableWidget.drop s children).2.2 =
      DroppableWidget.dropPoly
        ((children.filter (fun c => !c.2)).map Prod.fst) ∧
    DroppableWidget.dropPoly [] = none ∧
    (∀ w ws, DroppableWidget.dropPoly (w :: ws) =
      some ⟨(w :: ws).flatMap (fun c =>
        [(c.winfo_x, c.winfo_y),
         (c.winfo_x, c.winfo_y + c.winfo_reqheight),
         (c.winfo_x + c.winfo_reqwidth, c.winfo_y + c.winfo_reqheight),
         (c.winfo_x + c.winfo_reqwidth, c.winfo_y)])⟩) ∧
    (DroppableWidget.drop s children).1 = (DroppableWidget.drop s []).1 ∧
    (DroppableWidget.drop s children).2.1 =
      (DroppableWidget.drop s []).2.1 := by
  refine ⟨rfl, rfl, ?_, rfl, rfl⟩
  intro w ws
  rw [dropPoly_eq_foldl]
  show ws.foldl dropStep (dropStep none w) = _
  rw [show dropStep none w = some (DroppableWidget.rectPath w) from rfl,
      foldl_dropStep_some]
  simp [DroppableWidget.rectPath]

/-- C9: `Row` and `Column` construct successfully: they forward
`tk.HORIZONTAL` resp. `tk.VERTICAL` to `Series.__init__`, so neither
orientation error branch is reachable from them. -/
theorem row_column_never_error :
    Row.init = Except.ok { series := [], orientation := tk.HORIZONTAL } ∧
    Column.init = Except.ok { series := [], orientation := tk.VERTICAL } ∧
    (∀ e, Row.init ≠ Except.error e) ∧
    (∀ e, Column.init ≠ Except.error e) := by
  refine ⟨?_, ?_, ?_, ?_⟩
  · simp [Row.init, Series.init]
  · simp [Column.init, Series.init]
  · intro e he
    simp [Row.init, Series.init] at he
  · intro e he
    simp [Column.init, Series.init] at he

end Tkex
